import Mathlib

/-!
Verification of the role-expiry bot (src/bot.py): the pending_roles store
(Database), the grant/revoke observer (RoleManagerCog.on_member_update) and
the expiry sweeper (RoleManagerCog.check_expired_roles), shallowly embedded
over explicit state and an explicit remote environment.
-/

namespace DiscBot

/-- A row of the pending_roles table created by Database.init_db:
(user_id, guild_id, role_id, assigned_at, assigned_by) with
PRIMARY KEY (user_id, guild_id, role_id). The assigned_at TEXT column is
modelled as an integer number of seconds; agreement of the ISO-8601 TEXT
encoding with this abstraction is the subject of iso_order_agreement. -/
structure Row where
  user_id : Nat
  guild_id : Nat
  role_id : Nat
  assigned_at : Int
  assigned_by : String
deriving DecidableEq, Repr

/-- The pending_roles table state. -/
abbrev DB := List Row

/-- The keyed WHERE clause user_id = ? AND guild_id = ? AND role_id = ? used by
Database.remove_role_record, and the PRIMARY KEY conflict test used by
INSERT OR REPLACE in Database.add_role. -/
def keyMatch (u g r : Nat) (row : Row) : Bool :=
  row.user_id == u && row.guild_id == g && row.role_id == r

/-- Number of rows matching a key; this is the SQLite cursor.rowcount of the
keyed DELETE in Database.remove_role_record. -/
def countKey (db : DB) (u g r : Nat) : Nat :=
  (db.filter (fun x => keyMatch u g r x)).length

/-- Database.add_role: INSERT OR REPLACE INTO pending_roles with
assigned_at = datetime.now(timezone.utc).isoformat(); the current time is
passed explicitly as now. Replacement deletes any row with the same primary
key and inserts the new one. -/
def add_role (db : DB) (u g r : Nat) (assigned_by : String) (now : Int) : DB :=
  db.filter (fun x => ! keyMatch u g r x) ++ [⟨u, g, r, now, assigned_by⟩]

/-- Database.remove_role_record: DELETE FROM pending_roles by key; returns the
new table and cursor.rowcount. -/
def remove_role_record (db : DB) (u g r : Nat) : DB × Nat :=
  (db.filter (fun x => ! keyMatch u g r x), countKey db u g r)

/-- HOURS_UNTIL_REMOVAL = 24 from the settings section. -/
def HOURS_UNTIL_REMOVAL : Nat := 24

/-- timedelta(hours=hours) expressed in seconds. -/
def hoursToSeconds (hours : Nat) : Int := (hours : Int) * 3600

/-- Database.get_expired_roles: SELECT ... WHERE assigned_at < ? with the
parameter (datetime.now(timezone.utc) - timedelta(hours=hours)).isoformat();
the implicit current time is passed explicitly as now. The TEXT comparison
performed by SQLite agrees with this integer comparison by
iso_order_agreement. -/
def get_expired_roles (db : DB) (hours : Nat) (now : Int) : List Row :=
  db.filter (fun row => row.assigned_at < now - hoursToSeconds hours)

/-- The before/after member snapshot delivered to on_member_update:
member id, guild id and the set of role ids on the member. -/
structure MemberState where
  id : Nat
  guild_id : Nat
  roles : List Nat
deriving DecidableEq, Repr

/-- The assigner attribution computed in on_member_update: the audit-log
result when the best-effort lookup found a matching entry, otherwise the
initial value "system/unknown" (kept when audit reading is Forbidden, when it
raises any other error, and when no entry matches). -/
def resolve_assigner (audit : Option String) : String :=
  match audit with
  | some assigner => assigner
  | none => "system/unknown"

/-- RoleManagerCog.on_member_update for tracked role id tracked: on the role
appearing (in after.roles and not before.roles) add a store row with the
resolved attribution; on the role disappearing delete the keyed row; otherwise
no store change. -/
def on_member_update (tracked : Nat) (db : DB) (before after : MemberState)
    (audit : Option String) (now : Int) : DB :=
  if tracked ∈ after.roles ∧ tracked ∉ before.roles then
    add_role db after.id after.guild_id tracked (resolve_assigner audit) now
  else if tracked ∈ before.roles ∧ tracked ∉ after.roles then
    (remove_role_record db after.id after.guild_id tracked).1
  else
    db

/-- Outcome of the member.remove_roles call as observed by the sweeper:
normal return, discord.Forbidden, or any other raised exception. -/
inductive RevokeOutcome
  | success
  | forbidden
  | raised
deriving DecidableEq, Repr

/-- Remote mutation or message calls issued while processing one row. -/
inductive RemoteCall
  | revoke (guild user role : Nat)
  | dm (user : Nat)
deriving DecidableEq, Repr

/-- How the per-row try block of check_expired_roles ended. -/
inductive RowOutcome
  | danglingGuild
  | danglingMember
  | danglingRole
  | skippedHierarchy
  | revoked
  | forbiddenErr
  | otherErr
deriving DecidableEq, Repr

/-- The remote Discord state consulted by check_expired_roles:
bot.get_guild, guild.get_member, guild.get_role, the bot member lookup,
role positions used by the role comparison, and the result of
member.remove_roles. -/
structure Env where
  guildFound : Nat → Bool
  memberFound : Nat → Nat → Bool
  roleFound : Nat → Nat → Bool
  botMemberFound : Nat → Bool
  botTopRank : Nat → Int
  roleRank : Nat → Nat → Int
  removeRoles : Nat → Nat → Nat → RevokeOutcome

/-- The body of the per-row try block in check_expired_roles: resolve
guild, member and role (deleting the row and continuing when any is missing),
skip when the bot member is found and the role is not strictly below the bot
top role, otherwise attempt the remote revoke; on success delete the row and
attempt the direct message, on Forbidden or any other exception keep the row.
Returns the new table, the remote calls issued, and how the block ended. -/
def process_row (env : Env) (db : DB) (row : Row) : DB × List RemoteCall × RowOutcome :=
  if env.guildFound row.guild_id = false then
    ((remove_role_record db row.user_id row.guild_id row.role_id).1, [], RowOutcome.danglingGuild)
  else if env.memberFound row.guild_id row.user_id = false then
    ((remove_role_record db row.user_id row.guild_id row.role_id).1, [], RowOutcome.danglingMember)
  else if env.roleFound row.guild_id row.role_id = false then
    ((remove_role_record db row.user_id row.guild_id row.role_id).1, [], RowOutcome.danglingRole)
  else if env.botMemberFound row.guild_id = true ∧
      env.botTopRank row.guild_id ≤ env.roleRank row.guild_id row.role_id then
    (db, [], RowOutcome.skippedHierarchy)
  else
    match env.removeRoles row.guild_id row.user_id row.role_id with
    | RevokeOutcome.success =>
        ((remove_role_record db row.user_id row.guild_id row.role_id).1,
         [RemoteCall.revoke row.guild_id row.user_id row.role_id, RemoteCall.dm row.user_id],
         RowOutcome.revoked)
    | RevokeOutcome.forbidden =>
        (db, [RemoteCall.revoke row.guild_id row.user_id row.role_id], RowOutcome.forbiddenErr)
    | RevokeOutcome.raised =>
        (db, [RemoteCall.revoke row.guild_id row.user_id row.role_id], RowOutcome.otherErr)

/-- The for loop of check_expired_roles over the fetched expired rows:
each row is processed by its own protected try block and the loop always
continues with the remaining rows. -/
def sweep_rows (env : Env) (db : DB) : List Row → DB × List RemoteCall × List RowOutcome
  | [] => (db, [], [])
  | row :: rest =>
      let step := process_row env db row
      let tail := sweep_rows env step.1 rest
      (tail.1, step.2.1 ++ tail.2.1, step.2.2 :: tail.2.2)

/-- One firing of the check_expired_roles task: fetch the expired rows at
threshold HOURS_UNTIL_REMOVAL and process each of them. The surrounding
try/except at the cycle boundary is modelled by this being a total function. -/
def check_expired_roles (env : Env) (db : DB) (now : Int) : DB × List RemoteCall × List RowOutcome :=
  sweep_rows env db (get_expired_roles db HOURS_UNTIL_REMOVAL now)

/-- A sequence of Database.add_role calls with one fixed key; each element of
the list carries the assigned_by string and the call time. -/
def apply_adds (db : DB) (u g r : Nat) : List (String × Int) → DB
  | [] => db
  | c :: cs => apply_adds (add_role db u g r c.1 c.2) u g r cs

/-- A UTC wall-clock instant as held by datetime.now(timezone.utc):
the calendar fields that isoformat prints. -/
structure UtcTime where
  year : Nat
  month : Nat
  day : Nat
  hour : Nat
  minute : Nat
  second : Nat
  microsecond : Nat
deriving DecidableEq, Repr

/-- Field-width bounds under which isoformat prints each field zero padded to
its fixed width. Every instant datetime.now can return satisfies them. -/
def UtcTime.valid (t : UtcTime) : Prop :=
  t.year < 10 ^ 4 ∧ t.month < 10 ^ 2 ∧ t.day < 10 ^ 2 ∧ t.hour < 10 ^ 2 ∧
    t.minute < 10 ^ 2 ∧ t.second < 10 ^ 2 ∧ t.microsecond < 10 ^ 6

instance (t : UtcTime) : Decidable t.valid := by
  unfold UtcTime.valid
  infer_instance

/-- Zero-padded decimal rendering of n to exactly k digit bytes,
most significant first. -/
def digits : Nat → Nat → List Nat
  | 0, _ => []
  | k + 1, n => digits k (n / 10) ++ [48 + n % 10]

/-- The tail of isoformat output after the seconds field: the optional
".ffffff" fractional part (printed only when the microsecond field is
nonzero) followed by the fixed "+00:00" UTC offset. -/
def microSuffix (micro : Nat) : List Nat :=
  (if micro = 0 then [] else 46 :: digits 6 micro) ++ [43, 48, 48, 58, 48, 48]

/-- datetime.isoformat() on an aware UTC instant, as the byte sequence SQLite
stores for the TEXT column: "YYYY-MM-DDTHH:MM:SS[.ffffff]+00:00". -/
def isoformat (t : UtcTime) : List Nat :=
  digits 4 t.year ++ ([45] ++ (digits 2 t.month ++ ([45] ++ (digits 2 t.day ++ ([84] ++
    (digits 2 t.hour ++ ([58] ++ (digits 2 t.minute ++ ([58] ++ (digits 2 t.second ++
      microSuffix t.microsecond))))))))))

/-- Three-way comparison on Nat written out explicitly. -/
def natCmp (a b : Nat) : Ordering :=
  if a < b then Ordering.lt else if b < a then Ordering.gt else Ordering.eq

/-- The byte-wise comparison SQLite applies to TEXT values under the default
BINARY collation (memcmp order, shorter prefix first). -/
def bytesCmp : List Nat → List Nat → Ordering
  | [], [] => Ordering.eq
  | [], _ :: _ => Ordering.lt
  | _ :: _, [] => Ordering.gt
  | a :: xs, b :: ys =>
      if a < b then Ordering.lt else if b < a then Ordering.gt else bytesCmp xs ys

/-- Chronological comparison of two UTC instants: lexicographic over the
calendar fields from year down to microsecond. -/
def chronoCmp (t1 t2 : UtcTime) : Ordering :=
  (natCmp t1.year t2.year).then
    ((natCmp t1.month t2.month).then
      ((natCmp t1.day t2.day).then
        ((natCmp t1.hour t2.hour).then
          ((natCmp t1.minute t2.minute).then
            ((natCmp t1.second t2.second).then
              (natCmp t1.microsecond t2.microsecond))))))

/-- Remote state in which every lookup resolves, the bot member is absent from
the hierarchy pre-check, and every revoke raises discord.Forbidden. -/
def envForbid : Env where
  guildFound := fun _ => true
  memberFound := fun _ _ => true
  roleFound := fun _ _ => true
  botMemberFound := fun _ => false
  botTopRank := fun _ => 0
  roleRank := fun _ _ => 0
  removeRoles := fun _ _ _ => RevokeOutcome.forbidden

/-- Remote state in which no guild resolves. -/
def envDangling : Env where
  guildFound := fun _ => false
  memberFound := fun _ _ => true
  roleFound := fun _ _ => true
  botMemberFound := fun _ => true
  botTopRank := fun _ => 0
  roleRank := fun _ _ => 0
  removeRoles := fun _ _ _ => RevokeOutcome.success

/-- Remote state in which everything resolves and the tracked role sits at
the same rank as the bot top role, so the hierarchy pre-check fires. -/
def envSkip : Env where
  guildFound := fun _ => true
  memberFound := fun _ _ => true
  roleFound := fun _ _ => true
  botMemberFound := fun _ => true
  botTopRank := fun _ => 5
  roleRank := fun _ _ => 5
  removeRoles := fun _ _ _ => RevokeOutcome.success

/-- Remote state in which everything resolves and revoking for user 2 raises
an arbitrary exception while every other revoke succeeds. -/
def envRaiseUser2 : Env where
  guildFound := fun _ => true
  memberFound := fun _ _ => true
  roleFound := fun _ _ => true
  botMemberFound := fun _ => false
  botTopRank := fun _ => 0
  roleRank := fun _ _ => 0
  removeRoles := fun _ u _ => if u == 2 then RevokeOutcome.raised else RevokeOutcome.success

/-! Helper lemmas shared by several claims. -/

theorem filter_key_of_filter_not_key (db : DB) (u g r : Nat) :
    ((db.filter (fun x => ! keyMatch u g r x)).filter (fun x => keyMatch u g r x)) = [] := by
  induction db with
  | nil => rfl
  | cons x xs ih =>
      rcases hb : keyMatch u g r x with _ | _
      · simp [List.filter_cons, hb, ih]
      · simp [List.filter_cons, hb, ih]

theorem countKey_remove (db : DB) (u g r : Nat) :
    countKey (remove_role_record db u g r).1 u g r = 0 := by
  simp only [countKey, remove_role_record, filter_key_of_filter_not_key, List.length_nil]

theorem keyMatch_self (row : Row) : keyMatch row.user_id row.guild_id row.role_id row = true := by
  simp [keyMatch]

theorem add_role_filter (db : DB) (u g r : Nat) (assigned_by : String) (now : Int) :
    (add_role db u g r assigned_by now).filter (fun x => keyMatch u g r x)
      = [⟨u, g, r, now, assigned_by⟩] := by
  simp only [add_role, List.filter_append, filter_key_of_filter_not_key, List.nil_append]
  simp [List.filter_cons, keyMatch]

/-! Claim C1. -/

/-- Claim C1, counterexample: with threshold 24 hours and now = 86400 s, a row
whose assigned_at is exactly now minus 24 hours (that is, 0) is NOT returned
by Database.get_expired_roles, although the claim requires it to be
returned. -/
theorem expiry_boundary_counterexample :
    get_expired_roles [⟨1, 2, 3, 0, "mod"⟩] 24 86400 = [] := by decide

/-- Claim C1, amended: Database.get_expired_roles returns exactly the rows
whose assigned_at is strictly older than now minus the threshold, that is the
rows with now - assigned_at strictly greater than the threshold; the row at
exactly the boundary is excluded, the row one second younger is excluded and
the row one second older is included. -/
theorem expiry_strict_threshold (db : DB) (hours : Nat) (now : Int) (row : Row) :
    row ∈ get_expired_roles db hours now ↔
      row ∈ db ∧ hoursToSeconds hours < now - row.assigned_at := by
  simp only [get_expired_roles, List.mem_filter, decide_eq_true_eq]
  constructor
  · rintro ⟨h1, h2⟩
    exact ⟨h1, by omega⟩
  · rintro ⟨h1, h2⟩
    exact ⟨h1, by omega⟩

/-! Claim C3. -/

/-- Claim C3: after any nonempty sequence of Database.add_role calls with the
same (user_id, guild_id, role_id) key, the store holds exactly one row for
that key, and its assigned_at and assigned_by come from the most recent call;
INSERT OR REPLACE never produces a duplicate and never raises a duplicate-key
error (apply_adds is a total function). -/
theorem apply_adds_filter (u g r : Nat) (cs : List (String × Int)) :
    ∀ (db : DB) (c : String × Int),
      (apply_adds db u g r (c :: cs)).filter (fun x => keyMatch u g r x)
        = [⟨u, g, r, ((c :: cs).getLast (List.cons_ne_nil c cs)).2,
            ((c :: cs).getLast (List.cons_ne_nil c cs)).1⟩] := by
  induction cs with
  | nil =>
      intro db c
      simp [apply_adds, add_role_filter]
  | cons d ds ih =>
      intro db c
      rw [show apply_adds db u g r (c :: d :: ds)
          = apply_adds (add_role db u g r c.1 c.2) u g r (d :: ds) from rfl]
      rw [ih (add_role db u g r c.1 c.2) d]
      rfl

theorem upsert_uniqueness (db : DB) (u g r : Nat) (calls : List (String × Int))
    (h : calls ≠ []) :
    (apply_adds db u g r calls).filter (fun x => keyMatch u g r x)
      = [⟨u, g, r, (calls.getLast h).2, (calls.getLast h).1⟩] := by
  match calls with
  | c :: cs => exact apply_adds_filter u g r cs db c

/-- Claim C3, witness at a concrete input: two calls with the same key leave
exactly one row carrying the timestamp and attribution of the second call. -/
theorem upsert_uniqueness_witness :
    ([("a", (0 : Int)), ("b", 5)] ≠ ([] : List (String × Int))) ∧
    (apply_adds [] 1 2 3 [("a", 0), ("b", 5)]).filter (fun x => keyMatch 1 2 3 x)
      = [⟨1, 2, 3, 5, "b"⟩] :=
  ⟨by decide, upsert_uniqueness [] 1 2 3 [("a", 0), ("b", 5)] (by decide)⟩

/-! Claim C5. -/

/-- Claim C5: when a row with the key is present, the first
Database.remove_role_record call returns a positive rowcount and the second
call on the same key returns rowcount 0; both calls are total functions, so
deleting an absent key never fails. -/
theorem idempotent_delete (db : DB) (u g r : Nat) (h : 0 < countKey db u g r) :
    0 < (remove_role_record db u g r).2 ∧
      (remove_role_record (remove_role_record db u g r).1 u g r).2 = 0 :=
  ⟨h, countKey_remove db u g r⟩

/-- Claim C5, witness at a concrete input: deleting the only row yields
rowcount 1 and deleting again yields rowcount 0. -/
theorem idempotent_delete_witness :
    0 < countKey [⟨1, 2, 3, 0, "mod"⟩] 1 2 3 ∧
    (0 < (remove_role_record [⟨1, 2, 3, 0, "mod"⟩] 1 2 3).2 ∧
      (remove_role_record (remove_role_record [⟨1, 2, 3, 0, "mod"⟩] 1 2 3).1 1 2 3).2 = 0) :=
  ⟨by decide, idempotent_delete [⟨1, 2, 3, 0, "mod"⟩] 1 2 3 (by decide)⟩

/-! Claim C6. -/

/-- Claim C6: delivering to on_member_update a notification in which the
tracked role id appears (after minus before) followed by one in which it
disappears (before minus after) for the same member and guild leaves the
store with zero rows for that (member, guild, tracked role) key. -/
theorem observer_round_trip (tracked : Nat) (db : DB) (b1 a1 b2 a2 : MemberState)
    (aud1 aud2 : Option String) (n1 n2 : Int)
    (h1 : tracked ∈ a1.roles ∧ tracked ∉ b1.roles)
    (h2 : tracked ∈ b2.roles ∧ tracked ∉ a2.roles)
    (hid : a2.id = a1.id) (hgd : a2.guild_id = a1.guild_id) :
    countKey (on_member_update tracked (on_member_update tracked db b1 a1 aud1 n1) b2 a2 aud2 n2)
      a1.id a1.guild_id tracked = 0 := by
  unfold on_member_update
  rw [if_pos h1, if_neg (by rintro ⟨hc, _⟩; exact absurd hc h2.2), if_pos h2, hid, hgd]
  exact countKey_remove _ a1.id a1.guild_id tracked

/-- Claim C6, witness at a concrete input: role 5 granted then manually
removed leaves no row for the key. -/
theorem observer_round_trip_witness :
    ((5 : Nat) ∈ [(5 : Nat)] ∧ (5 : Nat) ∉ ([] : List Nat)) ∧
    ((5 : Nat) ∈ [(5 : Nat)] ∧ (5 : Nat) ∉ ([] : List Nat)) ∧
    ((⟨1, 2, []⟩ : MemberState).id = (⟨1, 2, [5]⟩ : MemberState).id) ∧
    ((⟨1, 2, []⟩ : MemberState).guild_id = (⟨1, 2, [5]⟩ : MemberState).guild_id) ∧
    countKey (on_member_update 5
        (on_member_update 5 [] ⟨1, 2, []⟩ ⟨1, 2, [5]⟩ (some "admin") 0)
        ⟨1, 2, [5]⟩ ⟨1, 2, []⟩ none 7)
      (⟨1, 2, [5]⟩ : MemberState).id (⟨1, 2, [5]⟩ : MemberState).guild_id 5 = 0 :=
  ⟨⟨by decide, by decide⟩, ⟨by decide, by decide⟩, rfl, rfl,
    observer_round_trip 5 [] ⟨1, 2, []⟩ ⟨1, 2, [5]⟩ ⟨1, 2, [5]⟩ ⟨1, 2, []⟩
      (some "admin") none 0 7 ⟨by decide, by decide⟩ ⟨by decide, by decide⟩ rfl rfl⟩

/-! Claim C8. -/

/-- Claim C8, counterexample: when the audit-trail lookup fails, the row
written by on_member_update carries the attribution string "system/unknown",
not the string "unknown" required by the claim. -/
theorem attribution_counterexample :
    on_member_update 5 [] ⟨1, 2, []⟩ ⟨1, 2, [5]⟩ none 0
      = [⟨1, 2, 5, 0, "system/unknown"⟩] ∧ "system/unknown" ≠ "unknown" :=
  ⟨by decide, by decide⟩

/-- Claim C8, amended: when the tracked role newly appears and the audit
lookup fails or finds no matching entry, the store write is still performed,
and the attribution field of the written row is the string "system/unknown". -/
theorem attribution_fallback (tracked : Nat) (db : DB) (b a : MemberState) (now : Int)
    (h : tracked ∈ a.roles ∧ tracked ∉ b.roles) :
    on_member_update tracked db b a none now
      = add_role db a.id a.guild_id tracked "system/unknown" now := by
  unfold on_member_update
  rw [if_pos h]
  rfl

/-- Claim C8, witness at a concrete input: the grant event with a failed
audit lookup writes the row with attribution "system/unknown". -/
theorem attribution_fallback_witness :
    ((5 : Nat) ∈ [(5 : Nat)] ∧ (5 : Nat) ∉ ([] : List Nat)) ∧
    on_member_update 5 [] ⟨1, 2, []⟩ ⟨1, 2, [5]⟩ none 0
      = add_role [] (⟨1, 2, [5]⟩ : MemberState).id (⟨1, 2, [5]⟩ : MemberState).guild_id 5
          "system/unknown" 0 :=
  ⟨⟨by decide, by decide⟩,
    attribution_fallback 5 [] ⟨1, 2, []⟩ ⟨1, 2, [5]⟩ 0 ⟨by decide, by decide⟩⟩

/-! Sweeper lemmas. -/

theorem process_row_db_cases (env : Env) (db : DB) (r : Row) :
    (process_row env db r).1 = db ∨
      (process_row env db r).1 = (remove_role_record db r.user_id r.guild_id r.role_id).1 := by
  unfold process_row
  split_ifs
  · right; rfl
  · right; rfl
  · right; rfl
  · left; rfl
  · cases env.removeRoles r.guild_id r.user_id r.role_id
    · right; rfl
    · left; rfl
    · left; rfl

theorem process_row_retains (env : Env) (db : DB) (r : Row)
    (hg : env.guildFound r.guild_id = true)
    (hm : env.memberFound r.guild_id r.user_id = true)
    (hro : env.roleFound r.guild_id r.role_id = true)
    (hfail : env.removeRoles r.guild_id r.user_id r.role_id ≠ RevokeOutcome.success) :
    (process_row env db r).1 = db := by
  unfold process_row
  rw [if_neg (by simp [hg]), if_neg (by simp [hm]), if_neg (by simp [hro])]
  by_cases hpre : env.botMemberFound r.guild_id = true ∧
      env.botTopRank r.guild_id ≤ env.roleRank r.guild_id r.role_id
  · rw [if_pos hpre]
  · rw [if_neg hpre]
    rcases hout : env.removeRoles r.guild_id r.user_id r.role_id
    · exact absurd hout hfail
    · rfl
    · rfl

theorem sweep_retains (env : Env) (rows : List Row) (db : DB) (row : Row)
    (hg : env.guildFound row.guild_id = true)
    (hm : env.memberFound row.guild_id row.user_id = true)
    (hro : env.roleFound row.guild_id row.role_id = true)
    (hfail : env.removeRoles row.guild_id row.user_id row.role_id ≠ RevokeOutcome.success)
    (hmem : row ∈ db) :
    row ∈ (sweep_rows env db rows).1 := by
  induction rows generalizing db with
  | nil => exact hmem
  | cons r rest ih =>
      show row ∈ (sweep_rows env (process_row env db r).1 rest).1
      apply ih
      by_cases hkey : keyMatch r.user_id r.guild_id r.role_id row = true
      · have hks : (row.user_id = r.user_id ∧ row.guild_id = r.guild_id) ∧
            row.role_id = r.role_id := by
          simpa [keyMatch, Bool.and_eq_true, beq_iff_eq] using hkey
        obtain ⟨⟨e1, e2⟩, e3⟩ := hks
        rw [process_row_retains env db r (by rw [← e2]; exact hg)
          (by rw [← e2, ← e1]; exact hm) (by rw [← e2, ← e3]; exact hro)
          (by rw [← e2, ← e1, ← e3]; exact hfail)]
        exact hmem
      · rcases process_row_db_cases env db r with hc | hc
        · rw [hc]; exact hmem
        · rw [hc]
          refine List.mem_filter.mpr ⟨hmem, ?_⟩
          rw [Bool.not_eq_true] at hkey
          rw [hkey]
          rfl

theorem process_row_otherErr_frame (env : Env) (db : DB) (r : Row)
    (h : (process_row env db r).2.2 = RowOutcome.otherErr) :
    (process_row env db r).1 = db := by
  unfold process_row at h ⊢
  split_ifs at h ⊢
  revert h
  rcases env.removeRoles r.guild_id r.user_id r.role_id
  · intro h; simp at h
  · intro h; simp at h
  · intro _; rfl

/-! Claim C2. -/

/-- Claim C2: when the sweeper processes an expired row whose guild, member
and role all resolve, the hierarchy pre-check does not fire, and the remote
revoke fails (discord.Forbidden or any other exception), the row is not
deleted: it is still a member of the table after the whole sweep cycle,
and Database.get_expired_roles returns it again at any later time. -/
theorem retention_on_revoke_failure (env : Env) (db : DB) (row : Row) (now1 now2 : Int)
    (hg : env.guildFound row.guild_id = true)
    (hm : env.memberFound row.guild_id row.user_id = true)
    (hro : env.roleFound row.guild_id row.role_id = true)
    (_hpre : ¬ (env.botMemberFound row.guild_id = true ∧
        env.botTopRank row.guild_id ≤ env.roleRank row.guild_id row.role_id))
    (hfail : env.removeRoles row.guild_id row.user_id row.role_id ≠ RevokeOutcome.success)
    (hexp : row ∈ get_expired_roles db HOURS_UNTIL_REMOVAL now1)
    (hnow : now1 ≤ now2) :
    row ∈ (check_expired_roles env db now1).1 ∧
      row ∈ get_expired_roles (check_expired_roles env db now1).1 HOURS_UNTIL_REMOVAL now2 := by
  have hmem : row ∈ db := (List.mem_filter.mp hexp).1
  have hcond := (List.mem_filter.mp hexp).2
  have h1 : row ∈ (check_expired_roles env db now1).1 :=
    sweep_retains env (get_expired_roles db HOURS_UNTIL_REMOVAL now1) db row hg hm hro hfail hmem
  refine ⟨h1, List.mem_filter.mpr ⟨h1, ?_⟩⟩
  simp only [decide_eq_true_eq] at hcond ⊢
  omega

/-- Claim C2, witness at a concrete input: every revoke raises Forbidden, so
the only expired row survives the cycle and is expired again later. -/
theorem retention_on_revoke_failure_witness :
    envForbid.guildFound 2 = true ∧
    envForbid.memberFound 2 1 = true ∧
    envForbid.roleFound 2 3 = true ∧
    (¬ (envForbid.botMemberFound 2 = true ∧ envForbid.botTopRank 2 ≤ envForbid.roleRank 2 3)) ∧
    envForbid.removeRoles 2 1 3 ≠ RevokeOutcome.success ∧
    (⟨1, 2, 3, 0, "mod"⟩ : Row) ∈ get_expired_roles [⟨1, 2, 3, 0, "mod"⟩] HOURS_UNTIL_REMOVAL 86401 ∧
    ((86401 : Int) ≤ 90000) ∧
    ((⟨1, 2, 3, 0, "mod"⟩ : Row) ∈ (check_expired_roles envForbid [⟨1, 2, 3, 0, "mod"⟩] 86401).1 ∧
      (⟨1, 2, 3, 0, "mod"⟩ : Row) ∈
        get_expired_roles (check_expired_roles envForbid [⟨1, 2, 3, 0, "mod"⟩] 86401).1
          HOURS_UNTIL_REMOVAL 90000) :=
  ⟨rfl, rfl, rfl, by simp [envForbid], by decide, by decide, by decide,
    retention_on_revoke_failure envForbid [⟨1, 2, 3, 0, "mod"⟩] ⟨1, 2, 3, 0, "mod"⟩ 86401 90000
      rfl rfl rfl (by simp [envForbid]) (by decide) (by decide) (by decide)⟩

/-! Claim C4. -/

/-- Claim C4: an expired row whose guild cannot be resolved, or whose member
is not found in the guild, or whose role no longer exists in the guild, is
deleted from the table by its processing step, which issues no remote call at
all, and the sweep loop then continues with the remaining rows from the
reduced table. -/
theorem dangling_cleanup (env : Env) (db : DB) (row : Row) (rest : List Row)
    (hdang : env.guildFound row.guild_id = false ∨
      (env.guildFound row.guild_id = true ∧ env.memberFound row.guild_id row.user_id = false) ∨
      (env.guildFound row.guild_id = true ∧ env.memberFound row.guild_id row.user_id = true ∧
        env.roleFound row.guild_id row.role_id = false)) :
    (process_row env db row).1 = (remove_role_record db row.user_id row.guild_id row.role_id).1 ∧
    row ∉ (process_row env db row).1 ∧
    (process_row env db row).2.1 = [] ∧
    (sweep_rows env db (row :: rest)).1 = (sweep_rows env (process_row env db row).1 rest).1 := by
  have hdb : (process_row env db row).1
        = (remove_role_record db row.user_id row.guild_id row.role_id).1 ∧
      (process_row env db row).2.1 = [] := by
    rcases hdang with h | ⟨h1, h2⟩ | ⟨h1, h2, h3⟩
    · unfold process_row
      rw [if_pos h]
      exact ⟨rfl, rfl⟩
    · unfold process_row
      rw [if_neg (by simp [h1]), if_pos h2]
      exact ⟨rfl, rfl⟩
    · unfold process_row
      rw [if_neg (by simp [h1]), if_neg (by simp [h2]), if_pos h3]
      exact ⟨rfl, rfl⟩
  refine ⟨hdb.1, ?_, hdb.2, rfl⟩
  rw [hdb.1]
  intro hmem
  have hk := (List.mem_filter.mp hmem).2
  rw [keyMatch_self row] at hk
  simp at hk

/-- Claim C4, witness at a concrete input: with the guild unreachable, the
single expired row is removed, no remote call is issued, and the loop
continues on the reduced table. -/
theorem dangling_cleanup_witness :
    (envDangling.guildFound 2 = false ∨
      (envDangling.guildFound 2 = true ∧ envDangling.memberFound 2 1 = false) ∨
      (envDangling.guildFound 2 = true ∧ envDangling.memberFound 2 1 = true ∧
        envDangling.roleFound 2 3 = false)) ∧
    ((process_row envDangling [⟨1, 2, 3, 0, "mod"⟩] ⟨1, 2, 3, 0, "mod"⟩).1
        = (remove_role_record [⟨1, 2, 3, 0, "mod"⟩] 1 2 3).1 ∧
      (⟨1, 2, 3, 0, "mod"⟩ : Row) ∉ (process_row envDangling [⟨1, 2, 3, 0, "mod"⟩] ⟨1, 2, 3, 0, "mod"⟩).1 ∧
      (process_row envDangling [⟨1, 2, 3, 0, "mod"⟩] ⟨1, 2, 3, 0, "mod"⟩).2.1 = [] ∧
      (sweep_rows envDangling [⟨1, 2, 3, 0, "mod"⟩] [⟨1, 2, 3, 0, "mod"⟩]).1
        = (sweep_rows envDangling
            (process_row envDangling [⟨1, 2, 3, 0, "mod"⟩] ⟨1, 2, 3, 0, "mod"⟩).1 []).1) :=
  ⟨Or.inl rfl,
    dangling_cleanup envDangling [⟨1, 2, 3, 0, "mod"⟩] ⟨1, 2, 3, 0, "mod"⟩ [] (Or.inl rfl)⟩

/-! Claim C7. -/

/-- Claim C7: in one sweep cycle over three expired rows, an exception raised
while processing the second row does not abort the loop: the third row is
still processed, its outcome is computed from the table state the second row
left unchanged, and each row of the cycle receives its own outcome. The outer
try/except at the cycle boundary is modelled by check_expired_roles and
sweep_rows being total functions, so future timer firings are unaffected. -/
theorem fault_isolation (env : Env) (db : DB) (r1 r2 r3 : Row)
    (h2 : (process_row env (process_row env db r1).1 r2).2.2 = RowOutcome.otherErr) :
    (sweep_rows env db [r1, r2, r3]).2.2 =
      [(process_row env db r1).2.2, RowOutcome.otherErr,
        (process_row env (process_row env db r1).1 r3).2.2] ∧
    (sweep_rows env db [r1, r2, r3]).1 =
      (process_row env (process_row env db r1).1 r3).1 := by
  have hframe := process_row_otherErr_frame env (process_row env db r1).1 r2 h2
  simp only [sweep_rows]
  rw [hframe, h2]
  exact ⟨rfl, rfl⟩

/-- Claim C7, witness at a concrete input: the revoke for the second row
raises; the first and third rows are still revoked and deleted, and the
outcomes are success, error, success. -/
theorem fault_isolation_witness :
    (process_row envRaiseUser2
        (process_row envRaiseUser2 [⟨1, 9, 7, 0, "a"⟩, ⟨2, 9, 7, 0, "b"⟩, ⟨3, 9, 7, 0, "c"⟩]
          ⟨1, 9, 7, 0, "a"⟩).1 ⟨2, 9, 7, 0, "b"⟩).2.2 = RowOutcome.otherErr ∧
    ((sweep_rows envRaiseUser2 [⟨1, 9, 7, 0, "a"⟩, ⟨2, 9, 7, 0, "b"⟩, ⟨3, 9, 7, 0, "c"⟩]
        [⟨1, 9, 7, 0, "a"⟩, ⟨2, 9, 7, 0, "b"⟩, ⟨3, 9, 7, 0, "c"⟩]).2.2 =
      [(process_row envRaiseUser2 [⟨1, 9, 7, 0, "a"⟩, ⟨2, 9, 7, 0, "b"⟩, ⟨3, 9, 7, 0, "c"⟩]
          ⟨1, 9, 7, 0, "a"⟩).2.2, RowOutcome.otherErr,
        (process_row envRaiseUser2
          (process_row envRaiseUser2 [⟨1, 9, 7, 0, "a"⟩, ⟨2, 9, 7, 0, "b"⟩, ⟨3, 9, 7, 0, "c"⟩]
            ⟨1, 9, 7, 0, "a"⟩).1 ⟨3, 9, 7, 0, "c"⟩).2.2] ∧
      (sweep_rows envRaiseUser2 [⟨1, 9, 7, 0, "a"⟩, ⟨2, 9, 7, 0, "b"⟩, ⟨3, 9, 7, 0, "c"⟩]
        [⟨1, 9, 7, 0, "a"⟩, ⟨2, 9, 7, 0, "b"⟩, ⟨3, 9, 7, 0, "c"⟩]).1 =
      (process_row envRaiseUser2
        (process_row envRaiseUser2 [⟨1, 9, 7, 0, "a"⟩, ⟨2, 9, 7, 0, "b"⟩, ⟨3, 9, 7, 0, "c"⟩]
          ⟨1, 9, 7, 0, "a"⟩).1 ⟨3, 9, 7, 0, "c"⟩).1) :=
  ⟨by decide,
    fault_isolation envRaiseUser2 [⟨1, 9, 7, 0, "a"⟩, ⟨2, 9, 7, 0, "b"⟩, ⟨3, 9, 7, 0, "c"⟩]
      ⟨1, 9, 7, 0, "a"⟩ ⟨2, 9, 7, 0, "b"⟩ ⟨3, 9, 7, 0, "c"⟩ (by decide)⟩

/-! Claim C10. -/

/-- Claim C10: when guild, member and role all resolve, the bot member is
found, and the role rank is greater than or equal to the bot top-role rank,
the per-row pre-check fires: the sweeper issues no remote revoke, sends no
notification, deletes nothing, and leaves the table exactly as it was. -/
theorem hierarchy_precheck_skip (env : Env) (db : DB) (row : Row)
    (hg : env.guildFound row.guild_id = true)
    (hm : env.memberFound row.guild_id row.user_id = true)
    (hro : env.roleFound row.guild_id row.role_id = true)
    (hbot : env.botMemberFound row.guild_id = true)
    (hrank : env.botTopRank row.guild_id ≤ env.roleRank row.guild_id row.role_id) :
    process_row env db row = (db, [], RowOutcome.skippedHierarchy) := by
  unfold process_row
  rw [if_neg (by simp [hg]), if_neg (by simp [hm]), if_neg (by simp [hro]),
    if_pos ⟨hbot, hrank⟩]

/-- Claim C10, witness at a concrete input: role rank equal to the bot top
rank makes the pre-check fire and the row processing a complete no-op. -/
theorem hierarchy_precheck_skip_witness :
    envSkip.guildFound 2 = true ∧
    envSkip.memberFound 2 1 = true ∧
    envSkip.roleFound 2 3 = true ∧
    envSkip.botMemberFound 2 = true ∧
    envSkip.botTopRank 2 ≤ envSkip.roleRank 2 3 ∧
    process_row envSkip [⟨1, 2, 3, 0, "mod"⟩] ⟨1, 2, 3, 0, "mod"⟩
      = ([⟨1, 2, 3, 0, "mod"⟩], [], RowOutcome.skippedHierarchy) :=
  ⟨rfl, rfl, rfl, rfl, by decide,
    hierarchy_precheck_skip envSkip [⟨1, 2, 3, 0, "mod"⟩] ⟨1, 2, 3, 0, "mod"⟩
      rfl rfl rfl rfl (by decide)⟩

/-! ISO-8601 text order lemmas for claim C9. -/

theorem lt_then (x : Ordering) : Ordering.then Ordering.lt x = Ordering.lt := rfl

theorem gt_then (x : Ordering) : Ordering.then Ordering.gt x = Ordering.gt := rfl

theorem eq_then (x : Ordering) : Ordering.then Ordering.eq x = x := rfl

theorem then_eq (o : Ordering) : Ordering.then o Ordering.eq = o := by
  cases o <;> rfl

theorem natCmp_eq_lt {a b : Nat} (h : a < b) : natCmp a b = Ordering.lt := by
  simp [natCmp, h]

theorem natCmp_eq_gt {a b : Nat} (h : b < a) : natCmp a b = Ordering.gt := by
  have h1 : ¬ a < b := by omega
  simp [natCmp, h, h1]

theorem natCmp_eq_eq {a b : Nat} (h : a = b) : natCmp a b = Ordering.eq := by
  simp [natCmp, h]

theorem bytesCmp_refl (xs : List Nat) : bytesCmp xs xs = Ordering.eq := by
  induction xs with
  | nil => rfl
  | cons a xs ih => simp [bytesCmp, ih]

theorem bytesCmp_cons_self (a : Nat) (xs ys : List Nat) :
    bytesCmp (a :: xs) (a :: ys) = bytesCmp xs ys := by
  simp [bytesCmp]

theorem bytesCmp_append : ∀ (xs us ys vs : List Nat), xs.length = us.length →
    bytesCmp (xs ++ ys) (us ++ vs) = (bytesCmp xs us).then (bytesCmp ys vs) := by
  intro xs
  induction xs with
  | nil =>
      intro us ys vs h
      cases us with
      | nil => simp only [List.nil_append]; exact (eq_then _).symm
      | cons b us => simp at h
  | cons a xs ih =>
      intro us ys vs h
      cases us with
      | nil => simp at h
      | cons b us =>
          have h1 : xs.length = us.length := by simpa using h
          simp only [List.cons_append, bytesCmp]
          by_cases hab : a < b
          · rw [if_pos hab, if_pos hab, lt_then]
          · rw [if_neg hab, if_neg hab]
            by_cases hba : b < a
            · rw [if_pos hba, if_pos hba, gt_then]
            · rw [if_neg hba, if_neg hba]
              exact ih us ys vs h1

theorem bytesCmp_single (a b : Nat) : bytesCmp [48 + a] [48 + b] = natCmp a b := by
  simp only [bytesCmp, natCmp]
  by_cases h1 : a < b
  · rw [if_pos (show 48 + a < 48 + b by omega), if_pos h1]
  · rw [if_neg (show ¬ 48 + a < 48 + b by omega), if_neg h1]
    by_cases h2 : b < a
    · rw [if_pos (show 48 + b < 48 + a by omega), if_pos h2]
    · rw [if_neg (show ¬ 48 + b < 48 + a by omega), if_neg h2]

theorem digits_length (k : Nat) : ∀ n, (digits k n).length = k := by
  induction k with
  | zero => intro n; rfl
  | succ k ih => intro n; simp [digits, ih]

theorem natCmp_div_mod (n m : Nat) :
    (natCmp (n / 10) (m / 10)).then (natCmp (n % 10) (m % 10)) = natCmp n m := by
  rcases Nat.lt_trichotomy (n / 10) (m / 10) with h | h | h
  · rw [natCmp_eq_lt h, lt_then, natCmp_eq_lt (show n < m by omega)]
  · rw [natCmp_eq_eq h, eq_then]
    rcases Nat.lt_trichotomy (n % 10) (m % 10) with h2 | h2 | h2
    · rw [natCmp_eq_lt h2, natCmp_eq_lt (show n < m by omega)]
    · rw [natCmp_eq_eq h2, natCmp_eq_eq (show n = m by omega)]
    · rw [natCmp_eq_gt h2, natCmp_eq_gt (show m < n by omega)]
  · rw [natCmp_eq_gt h, gt_then, natCmp_eq_gt (show m < n by omega)]

theorem bytesCmp_digits : ∀ (k n m : Nat), n < 10 ^ k → m < 10 ^ k →
    bytesCmp (digits k n) (digits k m) = natCmp n m := by
  intro k
  induction k with
  | zero =>
      intro n m hn hm
      have hn0 : n = 0 := by simpa using hn
      have hm0 : m = 0 := by simpa using hm
      subst hn0; subst hm0
      rfl
  | succ k ih =>
      intro n m hn hm
      have hn10 : n / 10 < 10 ^ k := by
        rw [pow_succ] at hn
        omega
      have hm10 : m / 10 < 10 ^ k := by
        rw [pow_succ] at hm
        omega
      show bytesCmp (digits k (n / 10) ++ [48 + n % 10]) (digits k (m / 10) ++ [48 + m % 10])
        = natCmp n m
      rw [bytesCmp_append _ _ _ _ (by rw [digits_length, digits_length]),
        ih (n / 10) (m / 10) hn10 hm10, bytesCmp_single, natCmp_div_mod]

theorem bytesCmp_digits_append (k n m : Nat) (ys vs : List Nat)
    (hn : n < 10 ^ k) (hm : m < 10 ^ k) :
    bytesCmp (digits k n ++ ys) (digits k m ++ vs)
      = (natCmp n m).then (bytesCmp ys vs) := by
  rw [bytesCmp_append _ _ _ _ (by rw [digits_length, digits_length]),
    bytesCmp_digits k n m hn hm]

theorem bytesCmp_lt_head {a b : Nat} (xs ys : List Nat) (h : a < b) :
    bytesCmp (a :: xs) (b :: ys) = Ordering.lt := by
  simp [bytesCmp, h]

theorem bytesCmp_gt_head {a b : Nat} (xs ys : List Nat) (h : b < a) :
    bytesCmp (a :: xs) (b :: ys) = Ordering.gt := by
  have h1 : ¬ a < b := by omega
  simp [bytesCmp, h, h1]

theorem microSuffix_zero : microSuffix 0 = 43 :: [48, 48, 58, 48, 48] := rfl

theorem microSuffix_pos {m : Nat} (h : ¬ m = 0) :
    microSuffix m = 46 :: (digits 6 m ++ [43, 48, 48, 58, 48, 48]) := by
  unfold microSuffix
  rw [if_neg h]
  rfl

theorem bytesCmp_microSuffix (m1 m2 : Nat) (h1 : m1 < 10 ^ 6) (h2 : m2 < 10 ^ 6) :
    bytesCmp (microSuffix m1) (microSuffix m2) = natCmp m1 m2 := by
  by_cases e1 : m1 = 0 <;> by_cases e2 : m2 = 0
  · subst e1; subst e2
    rfl
  · subst e1
    rw [natCmp_eq_lt (show 0 < m2 by omega), microSuffix_zero, microSuffix_pos e2]
    exact bytesCmp_lt_head _ _ (by omega)
  · subst e2
    rw [natCmp_eq_gt (show 0 < m1 by omega), microSuffix_zero, microSuffix_pos e1]
    exact bytesCmp_gt_head _ _ (by omega)
  · rw [microSuffix_pos e1, microSuffix_pos e2, bytesCmp_cons_self,
      bytesCmp_digits_append 6 m1 m2 _ _ h1 h2, bytesCmp_refl, then_eq]

/-! Claim C9. -/

/-- Claim C9: Database.add_role stores assigned_at in the UTC ISO-8601 text
produced by datetime.now(timezone.utc).isoformat(), and on any two instants
in that format the byte-wise TEXT comparison SQLite applies in
Database.get_expired_roles agrees exactly with chronological order
(including the case where one instant omits the fractional part because its
microsecond field is zero); in particular a stored value sorts strictly below
the threshold text if and only if it is chronologically strictly older, so
the expired-rows query selects rows in agreement with true time order. -/
theorem iso_order_agreement (t1 t2 : UtcTime) (h1 : t1.valid) (h2 : t2.valid) :
    bytesCmp (isoformat t1) (isoformat t2) = chronoCmp t1 t2 ∧
      (bytesCmp (isoformat t1) (isoformat t2) = Ordering.lt ↔ chronoCmp t1 t2 = Ordering.lt) := by
  obtain ⟨hy1, hmo1, hd1, hh1, hmi1, hs1, hus1⟩ := h1
  obtain ⟨hy2, hmo2, hd2, hh2, hmi2, hs2, hus2⟩ := h2
  have main : bytesCmp (isoformat t1) (isoformat t2) = chronoCmp t1 t2 := by
    unfold isoformat chronoCmp
    simp only [List.singleton_append]
    rw [bytesCmp_digits_append 4 _ _ _ _ hy1 hy2, bytesCmp_cons_self,
      bytesCmp_digits_append 2 _ _ _ _ hmo1 hmo2, bytesCmp_cons_self,
      bytesCmp_digits_append 2 _ _ _ _ hd1 hd2, bytesCmp_cons_self,
      bytesCmp_digits_append 2 _ _ _ _ hh1 hh2, bytesCmp_cons_self,
      bytesCmp_digits_append 2 _ _ _ _ hmi1 hmi2, bytesCmp_cons_self,
      bytesCmp_digits_append 2 _ _ _ _ hs1 hs2,
      bytesCmp_microSuffix _ _ hus1 hus2]
  exact ⟨main, by rw [main]⟩

/-- Claim C9, witness at concrete instants: an instant with microsecond zero
(printed without a fractional part) compares strictly below the same second
with microsecond 999999, in both the byte order and the chronological
order. -/
theorem iso_order_agreement_witness :
    (⟨2024, 1, 2, 3, 4, 5, 0⟩ : UtcTime).valid ∧
    (⟨2024, 1, 2, 3, 4, 5, 999999⟩ : UtcTime).valid ∧
    (bytesCmp (isoformat ⟨2024, 1, 2, 3, 4, 5, 0⟩) (isoformat ⟨2024, 1, 2, 3, 4, 5, 999999⟩)
        = chronoCmp ⟨2024, 1, 2, 3, 4, 5, 0⟩ ⟨2024, 1, 2, 3, 4, 5, 999999⟩ ∧
      (bytesCmp (isoformat ⟨2024, 1, 2, 3, 4, 5, 0⟩) (isoformat ⟨2024, 1, 2, 3, 4, 5, 999999⟩)
          = Ordering.lt ↔
        chronoCmp ⟨2024, 1, 2, 3, 4, 5, 0⟩ ⟨2024, 1, 2, 3, 4, 5, 999999⟩ = Ordering.lt)) :=
  ⟨by decide, by decide,
    iso_order_agreement ⟨2024, 1, 2, 3, 4, 5, 0⟩ ⟨2024, 1, 2, 3, 4, 5, 999999⟩
      (by decide) (by decide)⟩

end DiscBot
